import Mathlib

set_option maxHeartbeats 1000000

/-!
Verification of the request/response translation layer of the n8n manager:
the error classifier (src/utils/errors.ts), the retrying API gateway
(src/services/n8nClient.ts), and the tool dispatch handlers
(src/tools/workflows.ts, src/tools/executions.ts, src/server.ts).
JavaScript values are embedded shallowly: thrown values become an
explicit sum type, remote behaviour becomes an oracle argument, and
machine effects (logging, timers) are erased, keeping the control flow
and the produced data byte for byte.
-/

namespace N8n

/-- Truthiness-carrying model of a JavaScript value, used where the source
tests a value with `!v` or `||`.  NaN is not modelled (no claim needs it). -/
inductive JsValue where
  | undefinedV
  | vnull
  | vbool (b : Bool)
  | vnum (n : Int)
  | vstr (s : String)
  | vobj
deriving DecidableEq, Repr

/-- JavaScript truthiness of a value. -/
def JsValue.truthy : JsValue → Bool
  | .undefinedV => false
  | .vnull => false
  | .vbool b => b
  | .vnum n => n != 0
  | .vstr s => s != ""
  | .vobj => true

/-- JavaScript `a || b` on an optional string: both a missing value and the
empty string are falsy and select the fallback. -/
def jsOrS : Option String → String → String
  | some s, d => if s = "" then d else s
  | none, d => d

/-- Helper for `String.includes`: does `pat` occur as a prefix of `hay`? -/
def listStartsWith : List Char → List Char → Bool
  | _, [] => true
  | [], _ :: _ => false
  | a :: as, b :: bs => (a == b) && listStartsWith as bs

/-- Helper for `String.includes`: does `pat` occur inside `hay`? -/
def listHasSub : List Char → List Char → Bool
  | [], pat => pat.isEmpty
  | c :: t, pat => listStartsWith (c :: t) pat || listHasSub t pat

/-- `s.includes(pat)` of JavaScript. -/
def containsSub (s pat : String) : Bool :=
  listHasSub s.toList pat.toList

/-- The MCP error codes of `ErrorCode` in src/utils/errors.ts. -/
inductive ErrorCode where
  | INVALID_PARAMS
  | INTERNAL_ERROR
  | AUTHENTICATION_ERROR
  | AUTHORIZATION_ERROR
  | NOT_FOUND
  | RATE_LIMIT_ERROR
  | NETWORK_ERROR
  | TIMEOUT_ERROR
  | API_ERROR
deriving DecidableEq, Repr

/-- The parts of an axios HTTP response the classifier reads:
`response.status`, `response.statusText` and `(response.data).message`. -/
structure HttpResponse where
  status : Option Nat := none
  statusText : Option String := none
  dataMessage : Option String := none
deriving DecidableEq, Repr

/-- The parts of an `AxiosError` object the source reads: the flag tested by
`axios.isAxiosError`, the optional response, the network error `code`
(ECONNREFUSED and friends), the `message`, and `config.method`/`config.url`. -/
structure AxiosErrorModel where
  isAxiosError : Bool := true
  response : Option HttpResponse := none
  code : Option String := none
  message : String := ""
  configMethod : Option String := none
  configUrl : Option String := none
deriving DecidableEq, Repr

/-- A caught JavaScript failure value, as discriminated by
`createErrorResponse`: an `McpError` (carrying a code), an axios-shaped error
object, any other `Error` instance (for example a `ZodError`), or a thrown
non-Error value. -/
inductive ErrValue where
  | mcp (code : ErrorCode) (msg : String)
  | axios (e : AxiosErrorModel)
  | jsError (msg : String)
  | other
deriving DecidableEq, Repr

/-- `axios.isAxiosError(error)` / the local `isAxiosError` type guard:
tests the `isAxiosError` flag on the object. -/
def isAxiosError : ErrValue → Bool
  | .axios a => a.isAxiosError
  | _ => false

/-- `error.response?.status` after the axios guard. -/
def errStatus : ErrValue → Option Nat
  | .axios a => a.response.bind HttpResponse.status
  | _ => none

/-- `error.response` presence after the axios guard. -/
def errHasResponse : ErrValue → Bool
  | .axios a => a.response.isSome
  | _ => false

/-- `error instanceof Error`: `McpError` and `AxiosError` both extend
`Error`; a thrown non-Error value is not an instance. -/
def isErrorInstance : ErrValue → Bool
  | .mcp _ _ => true
  | .axios _ => true
  | .jsError _ => true
  | .other => false

/-- `error.message` for an `Error` instance. -/
def errMessage : ErrValue → String
  | .mcp _ m => m
  | .axios a => a.message
  | .jsError m => m
  | .other => ""

/-- `error.response?.status` of an axios error object. -/
def axStatus (e : AxiosErrorModel) : Option Nat :=
  e.response.bind HttpResponse.status

/-- `error.response?.statusText` of an axios error object. -/
def axStatusText (e : AxiosErrorModel) : Option String :=
  e.response.bind HttpResponse.statusText

/-- `(error.response?.data as \x7bmessage?\x7d)?.message` of an axios error. -/
def axApiMessage (e : AxiosErrorModel) : Option String :=
  e.response.bind HttpResponse.dataMessage

/-- `handleAxiosError` of src/utils/errors.ts: maps an axios failure to a
`(message, code)` pair by the switch on the HTTP status, with the network
`code` examined only in the default branch. -/
def handleAxiosError (e : AxiosErrorModel) : String × ErrorCode :=
  if axStatus e == some 400 then
    if (axApiMessage e).any (fun m => containsSub m "settings") then
      ("Workflow settings are required. The n8n API requires a settings object with executionOrder, saveData options, etc.",
       .INVALID_PARAMS)
    else
      (jsOrS (axApiMessage e) "Bad request. The request parameters are invalid.",
       .INVALID_PARAMS)
  else if axStatus e == some 401 then
    ("Authentication failed. Please check your n8n API key.", .AUTHENTICATION_ERROR)
  else if axStatus e == some 403 then
    ("You do not have permission to perform this action.", .AUTHORIZATION_ERROR)
  else if axStatus e == some 404 then
    (jsOrS (axApiMessage e) "The requested resource was not found.", .NOT_FOUND)
  else if axStatus e == some 405 then
    if (e.configUrl.any (fun u => containsSub u "/workflows")) && e.configMethod == some "PATCH" then
      ("Method not allowed. The n8n instance does not support " ++ jsOrS e.configMethod "this method"
         ++ " for this endpoint." ++ " Some n8n instances require PUT method for workflow updates instead of PATCH.",
       .API_ERROR)
    else
      ("Method not allowed. The n8n instance does not support " ++ jsOrS e.configMethod "this method"
         ++ " for this endpoint.",
       .API_ERROR)
  else if axStatus e == some 429 then
    ("Rate limit exceeded. Please try again later.", .RATE_LIMIT_ERROR)
  else if axStatus e == some 500 || axStatus e == some 502 || axStatus e == some 503 || axStatus e == some 504 then
    ("n8n server error: " ++ jsOrS (axStatusText e) "Internal server error", .API_ERROR)
  else
    if e.code == some "ECONNABORTED" || e.code == some "ETIMEDOUT" then
      ("Request timed out. Please try again.", .TIMEOUT_ERROR)
    else if e.code == some "ENOTFOUND" || e.code == some "ECONNREFUSED" then
      ("Unable to connect to n8n instance. Please check your API URL.", .NETWORK_ERROR)
    else
      (jsOrS (axApiMessage e) (if e.message = "" then "An error occurred while communicating with n8n" else e.message),
       .API_ERROR)

/-- The `(message, code)` pair computed inside `createErrorResponse`:
`McpError` passes its own message and code through, axios errors go through
`handleAxiosError`, other `Error` instances keep their message with the
initial `INTERNAL_ERROR` code, and non-Error values get the generic text. -/
def classify : ErrValue → String × ErrorCode
  | .mcp code msg => (msg, code)
  | .axios a =>
      if a.isAxiosError then handleAxiosError a
      else (a.message, .INTERNAL_ERROR)
  | .jsError msg => (msg, .INTERNAL_ERROR)
  | .other => ("An unexpected error occurred", .INTERNAL_ERROR)

/-- One entry of a tool result content array. -/
structure ContentItem where
  type : String
  text : String
deriving DecidableEq, Repr

/-- A tool result envelope.  The source success type `McpToolResponse` has
no `isError` field at all; its absence is modelled as `isError = false`,
which is how an MCP host reads it.  `ErrorResponse` carries `isError: true`. -/
structure ToolResult where
  isError : Bool := false
  content : List ContentItem
deriving DecidableEq, Repr

/-- `createErrorResponse` of src/utils/errors.ts: classify the failure and
wrap the message in a single-entry error envelope.  Note: the source returns
the classified message as is; `sanitizeErrorMessage` is not invoked. -/
def createErrorResponse (error : ErrValue) : ToolResult :=
  { isError := true
    content := [{ type := "text", text := "Error: " ++ (classify error).1 }] }

/-- `validateRequiredParams` of src/utils/errors.ts: collect every parameter
whose value is JavaScript-falsy and raise one `INVALID_PARAMS` `McpError`
naming all of them, joined by a comma. -/
def jsLookup (params : List (String × JsValue)) (key : String) : JsValue :=
  match params.find? (fun kv => kv.1 == key) with
  | some kv => kv.2
  | none => .undefinedV

/-- See `jsLookup`; the throwing function is modelled as `Except`. -/
def validateRequiredParams (params : List (String × JsValue)) (required : List String) :
    Except ErrValue Unit :=
  if (required.filter (fun p => !(jsLookup params p).truthy)).length > 0 then
    .error (.mcp .INVALID_PARAMS
      ("Missing required parameters: " ++
        String.intercalate ", " (required.filter (fun p => !(jsLookup params p).truthy))))
  else
    .ok ()

/-- The outcome of one send of a request, together with the bookkeeping the
claims are about: `result` is what `request` returns or throws, `attempts`
counts the sends performed, `delays` lists the backoff waits (milliseconds)
in the order they were awaited. -/
def exceptDecEq {ε α : Type} [DecidableEq ε] [DecidableEq α] :
    (a b : Except ε α) → Decidable (a = b)
  | .error a, .error b =>
    if h : a = b then .isTrue (by rw [h]) else .isFalse (by intro hh; cases hh; exact h rfl)
  | .error _, .ok _ => .isFalse (by intro h; cases h)
  | .ok _, .error _ => .isFalse (by intro h; cases h)
  | .ok a, .ok b =>
    if h : a = b then .isTrue (by rw [h]) else .isFalse (by intro hh; cases hh; exact h rfl)

instance {ε α : Type} [DecidableEq ε] [DecidableEq α] : DecidableEq (Except ε α) :=
  exceptDecEq

structure RequestTrace (α : Type) where
  result : Except ErrValue α
  attempts : Nat
  delays : List Nat
deriving DecidableEq, Repr

/-- `N8nApiClient.shouldRetry`: an error is transient when it is an axios
error and the status is 429, 503 or 504, or no response was received. -/
def shouldRetry (error : ErrValue) : Bool :=
  if isAxiosError error then
    errStatus error == some 429 || errStatus error == some 503 ||
      errStatus error == some 504 || !(errHasResponse error)
  else
    false

/-- `N8nApiClient.request` from the retry counter `retries` on: the outcome
of the k-th send of the request is `beh k`.  On an error, when
`retries < maxRetries` and the error is transient, wait
`Math.pow(2, retries) * 1000` milliseconds and resend; otherwise rethrow. -/
def requestFrom (maxRetries : Nat) (beh : Nat → Except ErrValue α) (retries : Nat) :
    RequestTrace α :=
  match beh retries with
  | .ok v => { result := .ok v, attempts := 1, delays := [] }
  | .error e =>
    if _h : retries < maxRetries ∧ shouldRetry e = true then
      { result := (requestFrom maxRetries beh (retries + 1)).result
        attempts := (requestFrom maxRetries beh (retries + 1)).attempts + 1
        delays := 2 ^ retries * 1000 :: (requestFrom maxRetries beh (retries + 1)).delays }
    else
      { result := .error e, attempts := 1, delays := [] }
termination_by maxRetries - retries
decreasing_by omega

/-- `N8nApiClient.request` starts with `retries = 0`. -/
def request (maxRetries : Nat) (beh : Nat → Except ErrValue α) : RequestTrace α :=
  requestFrom maxRetries beh 0

/-- A connection target record of the `connections` mapping. -/
structure ConnectionTarget where
  node : String
  type : String
  index : Nat
deriving DecidableEq, Repr

/-- A workflow node (src/types/index.ts), with the required fields; the
optional node fields and the parameters record are opaque to every claim
and kept as a key-value list. -/
structure WorkflowNode where
  id : String
  name : String
  type : String
  typeVersion : Nat
  position : Int × Int
  parameters : List (String × String)
deriving DecidableEq, Repr

/-- Workflow settings (src/types/index.ts). -/
structure WorkflowSettings where
  executionOrder : Option String := none
  timezone : Option String := none
  saveDataErrorExecution : Option String := none
  saveDataSuccessExecution : Option String := none
  saveManualExecutions : Option Bool := none
  saveExecutionProgress : Option Bool := none
  executionTimeout : Option Nat := none
  errorWorkflow : Option String := none
deriving DecidableEq, Repr

/-- A workflow record (src/types/index.ts); `connections` is the record
keyed by source node name. -/
structure Workflow where
  id : Option String := none
  name : String := ""
  nodes : List WorkflowNode := []
  connections : List (String × List (List ConnectionTarget)) := []
  active : Bool := false
  settings : Option WorkflowSettings := none
  tags : Option (List String) := none
  updatedAt : Option String := none
  createdAt : Option String := none
deriving DecidableEq, Repr

/-- HTTP verbs used by the gateway. -/
inductive HttpMethod where
  | GET
  | POST
  | PUT
  | PATCH
  | DELETE
deriving DecidableEq, Repr

/-- `N8nApiClient.updateWorkflow`: try PUT; on an axios 405 error retry the
same update once with PATCH; rethrow anything else.  The outcomes of the
two possible sends are the oracles `putRes` and `patchRes`; the second
component records the verbs attempted in order. -/
def updateWorkflow (putRes patchRes : Except ErrValue Workflow) :
    Except ErrValue Workflow × List HttpMethod :=
  match putRes with
  | .ok w => (.ok w, [.PUT])
  | .error e =>
    if isAxiosError e && (errStatus e == some 405) then
      (patchRes, [.PUT, .PATCH])
    else
      (.error e, [.PUT])

/-- The body of a workflow update request: the minimal
`\x7b active: flag \x7d` payload or a full workflow record. -/
inductive UpdateBody where
  | activeOnly (active : Bool)
  | full (w : Workflow)
deriving DecidableEq, Repr

/-- A request issued by the activation/deactivation chain. -/
inductive ApiCall where
  | put (id : String) (body : UpdateBody)
  | get (id : String)
  | patch (id : String) (body : UpdateBody)
deriving DecidableEq, Repr

/-- `N8nApiClient.activateWorkflow`: PUT the minimal active-only payload;
if that fails with an axios 405 or 400, fetch the workflow, set the flag on
the full record and PUT it; if the fetch or that PUT fails, PATCH the
minimal payload as a last resort; any other first-stage failure is
rethrown.  `env` gives the remote outcome of each request; the second
component records the requests issued in order. -/
def activateWorkflow (env : ApiCall → Except ErrValue Workflow) (id : String) :
    Except ErrValue Workflow × List ApiCall :=
  match env (.put id (.activeOnly true)) with
  | .ok w => (.ok w, [.put id (.activeOnly true)])
  | .error e =>
    if isAxiosError e && (errStatus e == some 405 || errStatus e == some 400) then
      match env (.get id) with
      | .ok workflow =>
        match env (.put id (.full { workflow with active := true })) with
        | .ok w2 =>
          (.ok w2,
           [.put id (.activeOnly true), .get id,
            .put id (.full { workflow with active := true })])
        | .error _ =>
          (env (.patch id (.activeOnly true)),
           [.put id (.activeOnly true), .get id,
            .put id (.full { workflow with active := true }),
            .patch id (.activeOnly true)])
      | .error _ =>
        (env (.patch id (.activeOnly true)),
         [.put id (.activeOnly true), .get id, .patch id (.activeOnly true)])
    else
      (.error e, [.put id (.activeOnly true)])

/-- `N8nApiClient.deactivateWorkflow`: identical chain with `active: false`. -/
def deactivateWorkflow (env : ApiCall → Except ErrValue Workflow) (id : String) :
    Except ErrValue Workflow × List ApiCall :=
  match env (.put id (.activeOnly false)) with
  | .ok w => (.ok w, [.put id (.activeOnly false)])
  | .error e =>
    if isAxiosError e && (errStatus e == some 405 || errStatus e == some 400) then
      match env (.get id) with
      | .ok workflow =>
        match env (.put id (.full { workflow with active := false })) with
        | .ok w2 =>
          (.ok w2,
           [.put id (.activeOnly false), .get id,
            .put id (.full { workflow with active := false })])
        | .error _ =>
          (env (.patch id (.activeOnly false)),
           [.put id (.activeOnly false), .get id,
            .put id (.full { workflow with active := false }),
            .patch id (.activeOnly false)])
      | .error _ =>
        (env (.patch id (.activeOnly false)),
         [.put id (.activeOnly false), .get id, .patch id (.activeOnly false)])
    else
      (.error e, [.put id (.activeOnly false)])

/-- The common generalisation of `activateWorkflow` and
`deactivateWorkflow`, abstracting the boolean the source writes literally.
Used to state the refinement claim that the two functions differ only in
that boolean. -/
def setActiveWorkflowModel (flag : Bool) (env : ApiCall → Except ErrValue Workflow)
    (id : String) : Except ErrValue Workflow × List ApiCall :=
  match env (.put id (.activeOnly flag)) with
  | .ok w => (.ok w, [.put id (.activeOnly flag)])
  | .error e =>
    if isAxiosError e && (errStatus e == some 405 || errStatus e == some 400) then
      match env (.get id) with
      | .ok workflow =>
        match env (.put id (.full { workflow with active := flag })) with
        | .ok w2 =>
          (.ok w2,
           [.put id (.activeOnly flag), .get id,
            .put id (.full { workflow with active := flag })])
        | .error _ =>
          (env (.patch id (.activeOnly flag)),
           [.put id (.activeOnly flag), .get id,
            .put id (.full { workflow with active := flag }),
            .patch id (.activeOnly flag)])
      | .error _ =>
        (env (.patch id (.activeOnly flag)),
         [.put id (.activeOnly flag), .get id, .patch id (.activeOnly flag)])
    else
      (.error e, [.put id (.activeOnly flag)])

/-- The parsed arguments of `n8n_update_workflow` after zod validation
(`updateWorkflowSchema`): `id` is required, the update fields are optional,
and `settings` always receives the schema default when absent. -/
structure UpdateWorkflowParams where
  id : String
  name : Option String := none
  nodes : Option (List WorkflowNode) := none
  connections : Option (List (String × List (List ConnectionTarget))) := none
  active : Option Bool := none
  tags : Option (List String) := none
  settings : WorkflowSettings
deriving DecidableEq, Repr

/-- `Object.assign(existingWorkflow, updateData)` with
`updateData = params` minus `id`: every field present on the update data
overwrites the fetched record; `settings` is always present after the zod
default, so it always overwrites. -/
def mergeWorkflow (existing : Workflow) (u : UpdateWorkflowParams) : Workflow :=
  { existing with
    name := u.name.getD existing.name
    nodes := u.nodes.getD existing.nodes
    connections := u.connections.getD existing.connections
    active := u.active.getD existing.active
    tags := match u.tags with | some t => some t | none => existing.tags
    settings := some u.settings }

/-- The text rendered by `handleUpdateWorkflow` on success; a missing id
prints as the JavaScript `undefined`. -/
def updatedText (w : Workflow) : String :=
  "Updated workflow \x22" ++ w.name ++ "\x22 (ID: " ++
    (match w.id with | some i => i | none => "undefined") ++ ")\nActive: " ++
    (if w.active then "Yes" else "No")

/-- Success envelope of `handleUpdateWorkflow`. -/
def updatedResponse (w : Workflow) : ToolResult :=
  { content := [{ type := "text", text := updatedText w }] }

/-- A request issued by `handleUpdateWorkflow`: the fetch of the existing
workflow, the submission of the merged full record, or the submission of
the caller-supplied update data alone. -/
inductive UpdEvent where
  | fetch (id : String)
  | submitMerged (id : String) (w : Workflow)
  | submitCallerData (id : String)
deriving DecidableEq, Repr

/-- `handleUpdateWorkflow` of src/tools/workflows.ts: when `nodes` or
`connections` is absent, fetch the existing workflow, merge the update data
over it and submit the merged record; if anything in that try block fails
(the fetch or the merged submission), submit the caller-supplied update
data alone; when both are present, submit the update data directly.
`getRes`, `updMerged` and `updCallerData` are the remote outcomes of the
three possible calls; the second component records the calls issued. -/
def handleUpdateWorkflow (p : UpdateWorkflowParams)
    (getRes : Except ErrValue Workflow)
    (updMerged : Workflow → Except ErrValue Workflow)
    (updCallerData : Except ErrValue Workflow) :
    Except ErrValue ToolResult × List UpdEvent :=
  if p.nodes.isNone || p.connections.isNone then
    match getRes with
    | .ok existingWorkflow =>
      match updMerged (mergeWorkflow existingWorkflow p) with
      | .ok w =>
        (.ok (updatedResponse w),
         [.fetch p.id, .submitMerged p.id (mergeWorkflow existingWorkflow p)])
      | .error _ =>
        (updCallerData.map updatedResponse,
         [.fetch p.id, .submitMerged p.id (mergeWorkflow existingWorkflow p),
          .submitCallerData p.id])
    | .error _ =>
      (updCallerData.map updatedResponse, [.fetch p.id, .submitCallerData p.id])
  else
    (updCallerData.map updatedResponse, [.submitCallerData p.id])

/-- The guidance text returned by `handleTriggerWebhookWorkflow` when the
webhook call fails and the error message mentions 404. -/
def webhookGuidance : String :=
  "Error: Webhook not found. Please ensure:\n1. The workflow has a Webhook trigger node\n2. The workflow is active\n3. The webhook URL is correct\n4. The HTTP method matches the webhook configuration"

/-- `handleTriggerWebhookWorkflow` of src/tools/executions.ts after
validation: on success wrap the serialised remote response; on an `Error`
whose message contains the substring 404, return the guidance text as a
plain (not error-flagged) envelope; rethrow anything else. -/
def handleTriggerWebhookWorkflow (callRes : Except ErrValue String) :
    Except ErrValue ToolResult :=
  match callRes with
  | .ok responseJson =>
    .ok { content := [{ type := "text",
                        text := "Webhook triggered successfully!\nResponse: " ++ responseJson }] }
  | .error e =>
    if isErrorInstance e && containsSub (errMessage e) "404" then
      .ok { content := [{ type := "text", text := webhookGuidance }] }
    else
      .error e

/-- The CallTool request handler of `N8nMcpServer.setupHandlers`
(src/server.ts): look up the handler; when absent, throw a NOT_FOUND
`McpError` (the throw is outside the try block and escapes the handler);
when present, return its result, catching any failure and converting it
with `createErrorResponse`.  `handler` is the looked-up entry together
with the outcome of invoking it. -/
def callToolHandler (handler : Option (Except ErrValue ToolResult)) (name : String) :
    Except ErrValue ToolResult :=
  match handler with
  | none => .error (.mcp .NOT_FOUND ("Tool not found: " ++ name))
  | some hres =>
    match hres with
    | .ok result => .ok result
    | .error e => .ok (createErrorResponse e)

/-- ASCII whitespace, standing for the regex class backslash-s. -/
def isWsChar (c : Char) : Bool :=
  c == ' ' || c == '\t' || c == '\n' || c == '\r' || c == '\x0b' || c == '\x0c'

/-- The regex word class: letters, digits and underscore. -/
def isWordChar (c : Char) : Bool :=
  ('a' ≤ c && c ≤ 'z') || ('A' ≤ c && c ≤ 'Z') || ('0' ≤ c && c ≤ '9') || c == '_'

/-- The single-quote character, written by code point. -/
def quoteChar : Char := Char.ofNat 39

/-- Case-insensitive literal match: on success return the rest of the
input after the literal. -/
def ciStartsWith : List Char → List Char → Option (List Char)
  | cs, [] => some cs
  | [], _ :: _ => none
  | c :: cs, p :: ps => if c.toLower == p.toLower then ciStartsWith cs ps else none

/-- Greedy plus-quantifier over a character class: consume a maximal
nonempty run or fail. -/
def eatPlus (p : Char → Bool) : List Char → Option (List Char)
  | [] => none
  | c :: cs => if p c then some (cs.dropWhile p) else none

/-- Optional single character of a class. -/
def eatOpt (p : Char → Bool) : List Char → List Char
  | [] => []
  | c :: cs => if p c then cs else c :: cs

/-- The header-key pattern of `sanitizeErrorMessage`: the case-insensitive
literal, optional whitespace, then a nonempty run of non-whitespace. -/
def matchApiKeyHeader (cs : List Char) : Option (List Char) :=
  match ciStartsWith cs ("X-N8N-API-KEY:".toList) with
  | none => none
  | some cs1 => eatPlus (fun c => !(isWsChar c)) (cs1.dropWhile isWsChar)

/-- Separator class of the generic api-key pattern: double quote,
whitespace, colon or equals. -/
def sepClass (c : Char) : Bool :=
  c == '\x22' || isWsChar c || c == ':' || c == '='

/-- Quote class of the generic api-key pattern: double or single quote. -/
def quoteClass (c : Char) : Bool :=
  c == '\x22' || c == quoteChar

/-- Word-or-dash class of the secret runs. -/
def wordDash (c : Char) : Bool :=
  isWordChar c || c == '-'

/-- The generic api-key pattern of `sanitizeErrorMessage`: `api`, optional
underscore or dash, `key`, a nonempty separator run, an optional quote, a
nonempty word-or-dash run, an optional quote; greedy matching coincides
with the backtracking regex here because the separator and word classes
are disjoint. -/
def matchApiKeyAssign (cs : List Char) : Option (List Char) :=
  match ciStartsWith cs ("api".toList) with
  | none => none
  | some cs1 =>
    match ciStartsWith (eatOpt (fun c => c == '_' || c == '-') cs1) ("key".toList) with
    | none => none
    | some cs3 =>
      match eatPlus sepClass cs3 with
      | none => none
      | some cs4 =>
        match eatPlus wordDash (eatOpt quoteClass cs4) with
        | none => none
        | some cs6 => some (eatOpt quoteClass cs6)

/-- The bearer-token pattern of `sanitizeErrorMessage`. -/
def matchBearer (cs : List Char) : Option (List Char) :=
  match ciStartsWith cs ("Bearer".toList) with
  | none => none
  | some cs1 =>
    match eatPlus isWsChar cs1 with
    | none => none
    | some cs2 => eatPlus wordDash cs2

/-- Global regex replacement: scan left to right, replace each leftmost
match and continue after it.  `fuel` bounds the scan by the input length;
every match consumes at least one character. -/
def replaceAllAux (m : List Char → Option (List Char)) (repl : List Char) :
    Nat → List Char → List Char
  | 0, cs => cs
  | _ + 1, [] => []
  | fuel + 1, c :: cs =>
    match m (c :: cs) with
    | some rest => repl ++ replaceAllAux m repl fuel rest
    | none => c :: replaceAllAux m repl fuel cs

/-- String-level wrapper for one global replacement pass. -/
def replaceAllPat (m : List Char → Option (List Char)) (repl : String) (s : String) :
    String :=
  String.mk (replaceAllAux m repl.toList s.length s.toList)

/-- `sanitizeErrorMessage` of src/utils/errors.ts: the three replacement
passes in source order.  The source defines this function but never calls
it; it is embedded to compare its output with what the classifier emits. -/
def sanitizeErrorMessage (message : String) : String :=
  replaceAllPat matchBearer "Bearer [REDACTED]"
    (replaceAllPat matchApiKeyAssign "api_key: [REDACTED]"
      (replaceAllPat matchApiKeyHeader "X-N8N-API-KEY: [REDACTED]" message))

/-- The stage policy of the activation/deactivation chain for a given flag:
a full case analysis of which requests are issued, in which order, and what
is returned, for every remote behaviour.  The five cases partition all
behaviours: first-stage success; first-stage failure other than an axios
405/400; 405/400 then fetch and full-record resubmission succeed; 405/400
then the resubmission fails; 405/400 then the fetch fails. -/
def ChainSpec (flag : Bool)
    (f : (ApiCall → Except ErrValue Workflow) → String →
          Except ErrValue Workflow × List ApiCall) : Prop :=
  ∀ (env : ApiCall → Except ErrValue Workflow) (id : String),
    (∀ w, env (.put id (.activeOnly flag)) = .ok w →
      f env id = (.ok w, [.put id (.activeOnly flag)])) ∧
    (∀ e, env (.put id (.activeOnly flag)) = .error e →
      (isAxiosError e && (errStatus e == some 405 || errStatus e == some 400)) = false →
      f env id = (.error e, [.put id (.activeOnly flag)])) ∧
    (∀ e w w2, env (.put id (.activeOnly flag)) = .error e →
      (isAxiosError e && (errStatus e == some 405 || errStatus e == some 400)) = true →
      env (.get id) = .ok w →
      env (.put id (.full { w with active := flag })) = .ok w2 →
      f env id = (.ok w2,
        [.put id (.activeOnly flag), .get id,
         .put id (.full { w with active := flag })])) ∧
    (∀ e w e2, env (.put id (.activeOnly flag)) = .error e →
      (isAxiosError e && (errStatus e == some 405 || errStatus e == some 400)) = true →
      env (.get id) = .ok w →
      env (.put id (.full { w with active := flag })) = .error e2 →
      f env id = (env (.patch id (.activeOnly flag)),
        [.put id (.activeOnly flag), .get id,
         .put id (.full { w with active := flag }),
         .patch id (.activeOnly flag)])) ∧
    (∀ e e2, env (.put id (.activeOnly flag)) = .error e →
      (isAxiosError e && (errStatus e == some 405 || errStatus e == some 400)) = true →
      env (.get id) = .error e2 →
      f env id = (env (.patch id (.activeOnly flag)),
        [.put id (.activeOnly flag), .get id, .patch id (.activeOnly flag)]))

/-- A sample workflow record. -/
def wfA : Workflow :=
  { id := some "1", name := "A", active := true }

/-- An axios error with HTTP status 503 (transient). -/
def ax503 : AxiosErrorModel :=
  { response := some { status := some 503, statusText := some "Service Unavailable" }
    message := "Request failed with status code 503" }

/-- An axios error with HTTP status 405. -/
def ax405 : AxiosErrorModel :=
  { response := some { status := some 405, statusText := some "Method Not Allowed" }
    message := "Request failed with status code 405" }

/-- An axios error with HTTP status 400. -/
def ax400 : AxiosErrorModel :=
  { response := some { status := some 400, statusText := some "Bad Request" }
    message := "Request failed with status code 400" }

/-- An axios error with HTTP status 404, as produced by a webhook call
against a missing endpoint. -/
def ax404 : AxiosErrorModel :=
  { response := some { status := some 404, statusText := some "Not Found" }
    message := "Request failed with status code 404" }

/-- An axios error with HTTP status 500. -/
def ax500 : AxiosErrorModel :=
  { response := some { status := some 500, statusText := some "Internal Server Error" }
    message := "Request failed with status code 500" }

/-- An axios failure with no response, no recognised network code, no
payload message, and a bare error message. -/
def axPlain : AxiosErrorModel :=
  { response := none, code := none, message := "socket hang up" }

/-- A remote behaviour that fails every send with the transient 503. -/
def behC1 : Nat → Except ErrValue Workflow :=
  fun _ => .error (.axios ax503)

/-- A remote behaviour that accepts every request. -/
def envAllOk : ApiCall → Except ErrValue Workflow :=
  fun _ => .ok wfA

/-- An aggregated zod issue message: `ZodError.message` serialises every
issue, here two missing required fields. -/
def zodIssuesMsg : String :=
  "[\n  \x7b\n    \x22code\x22: \x22invalid_type\x22,\n    \x22expected\x22: \x22string\x22,\n    \x22received\x22: \x22undefined\x22,\n    \x22path\x22: [\x22name\x22],\n    \x22message\x22: \x22Required\x22\n  \x7d,\n  \x7b\n    \x22code\x22: \x22invalid_type\x22,\n    \x22expected\x22: \x22array\x22,\n    \x22received\x22: \x22undefined\x22,\n    \x22path\x22: [\x22nodes\x22],\n    \x22message\x22: \x22Required\x22\n  \x7d\n]"

/-- An update request that renames workflow wf9 without supplying nodes or
connections; `settings` carries the zod default. -/
def pUpdEx : UpdateWorkflowParams :=
  { id := "wf9", name := some "Renamed", settings := {} }

/-- The pre-update state of workflow wf9 on the remote. -/
def w0 : Workflow :=
  { id := some "wf9", name := "Old", active := false }

/-- The post-update state of workflow wf9 on the remote. -/
def w1 : Workflow :=
  { id := some "wf9", name := "Renamed", active := false }

theorem requestFrom_attempts_le {α : Type} (maxRetries : Nat) (beh : Nat → Except ErrValue α) :
    ∀ (n retries : Nat), maxRetries - retries ≤ n →
      (requestFrom maxRetries beh retries).attempts ≤ n + 1 := by
  intro n
  induction n with
  | zero =>
    intro retries h
    rw [requestFrom]
    cases hb : beh retries with
    | ok v => simp
    | error e =>
      dsimp only
      rw [dif_neg (by omega)]
  | succ n ih =>
    intro retries h
    rw [requestFrom]
    cases hb : beh retries with
    | ok v => simp
    | error e =>
      dsimp only
      by_cases hc : retries < maxRetries ∧ shouldRetry e = true
      · rw [dif_pos hc]
        have := ih (retries + 1) (by omega)
        simpa using this
      · rw [dif_neg hc]
        simp

theorem requestFrom_attempts_pos {α : Type} (maxRetries : Nat) (beh : Nat → Except ErrValue α)
    (retries : Nat) : 1 ≤ (requestFrom maxRetries beh retries).attempts := by
  rw [requestFrom]
  cases hb : beh retries with
  | ok v => simp
  | error e =>
    dsimp only
    by_cases hc : retries < maxRetries ∧ shouldRetry e = true
    · rw [dif_pos hc]; simp
    · rw [dif_neg hc]

theorem requestFrom_delays {α : Type} (maxRetries : Nat) (beh : Nat → Except ErrValue α) :
    ∀ (n retries : Nat), maxRetries - retries ≤ n →
      (requestFrom maxRetries beh retries).delays =
        (List.range' retries ((requestFrom maxRetries beh retries).attempts - 1)).map
          (fun k => 2 ^ k * 1000) := by
  intro n
  induction n with
  | zero =>
    intro retries h
    rw [requestFrom]
    cases hb : beh retries with
    | ok v => simp
    | error e =>
      dsimp only
      rw [dif_neg (by omega)]
      simp
  | succ n ih =>
    intro retries h
    rw [requestFrom]
    cases hb : beh retries with
    | ok v => simp
    | error e =>
      dsimp only
      by_cases hc : retries < maxRetries ∧ shouldRetry e = true
      · rw [dif_pos hc]
        have hpos := requestFrom_attempts_pos maxRetries beh (retries + 1)
        have hrec := ih (retries + 1) (by omega)
        simp only [Nat.add_sub_cancel]
        have hsucc : (requestFrom maxRetries beh (retries + 1)).attempts =
            ((requestFrom maxRetries beh (retries + 1)).attempts - 1) + 1 := by omega
        rw [hsucc, List.range'_succ, List.map_cons]
        rw [hrec, hsucc]
      · rw [dif_neg hc]
        simp

theorem requestFrom_retried_transient {α : Type} (maxRetries : Nat)
    (beh : Nat → Except ErrValue α) :
    ∀ (n retries : Nat), maxRetries - retries ≤ n →
      ∀ k, k + 1 < (requestFrom maxRetries beh retries).attempts →
        ∃ e, beh (retries + k) = .error e ∧ shouldRetry e = true := by
  intro n
  induction n with
  | zero =>
    intro retries h k hk
    rw [requestFrom] at hk
    cases hb : beh retries with
    | ok v => rw [hb] at hk; simp at hk
    | error e =>
      rw [hb] at hk
      dsimp only at hk
      rw [dif_neg (by omega)] at hk
      simp at hk
  | succ n ih =>
    intro retries h k hk
    rw [requestFrom] at hk
    cases hb : beh retries with
    | ok v => rw [hb] at hk; simp at hk
    | error e =>
      rw [hb] at hk
      dsimp only at hk
      by_cases hc : retries < maxRetries ∧ shouldRetry e = true
      · rw [dif_pos hc] at hk
        simp only at hk
        cases k with
        | zero => exact ⟨e, by simpa using hb, hc.2⟩
        | succ k =>
          have := ih (retries + 1) (by omega) k (by omega)
          simpa [Nat.add_comm, Nat.add_left_comm, Nat.add_assoc] using this
      · rw [dif_neg hc] at hk
        simp at hk

theorem requestFrom_nonretry {α : Type} (maxRetries : Nat) (beh : Nat → Except ErrValue α)
    (retries : Nat) (e : ErrValue) (hb : beh retries = .error e)
    (hc : ¬(retries < maxRetries ∧ shouldRetry e = true)) :
    requestFrom maxRetries beh retries =
      { result := .error e, attempts := 1, delays := [] } := by
  rw [requestFrom, hb]
  dsimp only
  rw [dif_neg hc]

theorem requestFrom_exhaust {α : Type} (maxRetries : Nat) (beh : Nat → Except ErrValue α)
    (es : Nat → ErrValue)
    (hall : ∀ k, k ≤ maxRetries → beh k = .error (es k) ∧ shouldRetry (es k) = true) :
    ∀ (n retries : Nat), maxRetries - retries ≤ n → retries ≤ maxRetries →
      (requestFrom maxRetries beh retries).result = .error (es maxRetries) ∧
      (requestFrom maxRetries beh retries).attempts = maxRetries - retries + 1 := by
  intro n
  induction n with
  | zero =>
    intro retries h hle
    have heq : retries = maxRetries := by omega
    subst heq
    rw [requestFrom, (hall retries (by omega)).1]
    dsimp only
    rw [dif_neg (by omega)]
    simp
  | succ n ih =>
    intro retries h hle
    rcases Nat.lt_or_ge retries maxRetries with hlt | hge
    · rw [requestFrom, (hall retries (by omega)).1]
      dsimp only
      rw [dif_pos ⟨hlt, (hall retries (by omega)).2⟩]
      have := ih (retries + 1) (by omega) (by omega)
      refine ⟨this.1, ?_⟩
      simp only [this.2]
      omega
    · have heq : retries = maxRetries := by omega
      subst heq
      rw [requestFrom, (hall retries (by omega)).1]
      dsimp only
      rw [dif_neg (by omega)]
      simp

/-- C1: a Gateway request is retried only on a transient failure (axios
error with status 429, 503 or 504, or no response at all), the number of
retries never exceeds `maxRetries`, the backoff before retry k is `2^k`
seconds (stored in milliseconds), a non-transient first failure is raised
immediately with zero retries, and a behaviour that fails transiently on
every allowed attempt exhausts the budget and raises the last observed
failure. -/
theorem C1_retry_policy (maxRetries : Nat) (beh : Nat → Except ErrValue Workflow) :
    ((request maxRetries beh).attempts ≤ maxRetries + 1) ∧
    ((request maxRetries beh).delays =
      (List.range ((request maxRetries beh).attempts - 1)).map (fun k => 2 ^ k * 1000)) ∧
    (∀ k, k + 1 < (request maxRetries beh).attempts →
      ∃ e, beh k = .error e ∧ shouldRetry e = true) ∧
    (∀ e, shouldRetry e = true ↔
      (isAxiosError e = true ∧
        (errStatus e = some 429 ∨ errStatus e = some 503 ∨ errStatus e = some 504 ∨
          errHasResponse e = false))) ∧
    (∀ e, beh 0 = .error e → shouldRetry e = false →
      request maxRetries beh = { result := .error e, attempts := 1, delays := [] }) ∧
    (∀ es : Nat → ErrValue,
      (∀ k, k ≤ maxRetries → beh k = .error (es k) ∧ shouldRetry (es k) = true) →
      (request maxRetries beh).result = .error (es maxRetries) ∧
      (request maxRetries beh).attempts = maxRetries + 1) := by
  refine ⟨?_, ?_, ?_, ?_, ?_, ?_⟩
  · simpa using requestFrom_attempts_le maxRetries beh maxRetries 0 (by omega)
  · have := requestFrom_delays maxRetries beh maxRetries 0 (by omega)
    simpa [request, List.range_eq_range'] using this
  · intro k hk
    have := requestFrom_retried_transient maxRetries beh maxRetries 0 (by omega) k hk
    simpa using this
  · intro e
    cases e with
    | axios a =>
      simp only [shouldRetry, isAxiosError, errStatus, errHasResponse]
      by_cases ha : a.isAxiosError
      · simp only [ha, if_true, true_and]
        constructor
        · intro h
          rcases Bool.or_eq_true_iff.mp h with h | h
          · rcases Bool.or_eq_true_iff.mp h with h | h
            · rcases Bool.or_eq_true_iff.mp h with h | h
              · exact Or.inl (by simpa using h)
              · exact Or.inr (Or.inl (by simpa using h))
            · exact Or.inr (Or.inr (Or.inl (by simpa using h)))
          · refine Or.inr (Or.inr (Or.inr ?_))
            simpa [Option.isSome] using h
        · intro h
          rcases h with h | h | h | h <;>
            simp [h, Option.isSome_iff_exists]
      · simp [ha]
    | mcp c m => simp [shouldRetry, isAxiosError]
    | jsError m => simp [shouldRetry, isAxiosError]
    | other => simp [shouldRetry, isAxiosError]
  · intro e hb hs
    exact requestFrom_nonretry maxRetries beh 0 e hb (by simp [hs])
  · intro es hall
    have := requestFrom_exhaust maxRetries beh es hall maxRetries 0 (by omega) (by omega)
    simpa [request] using this

/-- C1 witness: with the default maximum of 3 and a remote that fails every
send with HTTP 503, the budget is exhausted after 4 sends and the last 503
failure is raised. -/
theorem C1_retry_policy_witness :
    (request 3 behC1).result = Except.error (ErrValue.axios ax503) ∧
    (request 3 behC1).attempts = 4 :=
  (C1_retry_policy 3 behC1).2.2.2.2.2 (fun _ => .axios ax503)
    (fun _ _ => ⟨rfl, (by decide : shouldRetry (ErrValue.axios ax503) = true)⟩)

/-- C2 (amended): the Error Classifier maps a caught axios failure by the
fixed status table — 400 to INVALID_PARAMS (specialised message when the
remote payload mentions settings), 401 to AUTHENTICATION_ERROR, 403 to
AUTHORIZATION_ERROR, 404 to NOT_FOUND, 405 to API_ERROR (naming the
disallowed method, with the PUT hint for workflow PATCH calls), 429 to
RATE_LIMIT_ERROR, 500/502/503/504 to API_ERROR; with no mapped status, a
connection-refused or host-not-found code maps to NETWORK_ERROR, a timeout
code to TIMEOUT_ERROR, and anything else to API_ERROR whose message is the
remote payload message if nonempty, else the error objects own message if
nonempty, else the generic fallback string. -/
theorem C2_classification (e : AxiosErrorModel) (hax : e.isAxiosError = true) :
    (axStatus e = some 400 →
      classify (.axios e) =
        (if (axApiMessage e).any (fun m => containsSub m "settings") then
           "Workflow settings are required. The n8n API requires a settings object with executionOrder, saveData options, etc."
         else jsOrS (axApiMessage e) "Bad request. The request parameters are invalid.",
         .INVALID_PARAMS)) ∧
    (axStatus e = some 401 →
      classify (.axios e) =
        ("Authentication failed. Please check your n8n API key.", .AUTHENTICATION_ERROR)) ∧
    (axStatus e = some 403 →
      classify (.axios e) =
        ("You do not have permission to perform this action.", .AUTHORIZATION_ERROR)) ∧
    (axStatus e = some 404 →
      classify (.axios e) =
        (jsOrS (axApiMessage e) "The requested resource was not found.", .NOT_FOUND)) ∧
    (axStatus e = some 405 →
      classify (.axios e) =
        (if (e.configUrl.any (fun u => containsSub u "/workflows")) && e.configMethod == some "PATCH" then
           "Method not allowed. The n8n instance does not support " ++ jsOrS e.configMethod "this method"
             ++ " for this endpoint." ++ " Some n8n instances require PUT method for workflow updates instead of PATCH."
         else
           "Method not allowed. The n8n instance does not support " ++ jsOrS e.configMethod "this method"
             ++ " for this endpoint.",
         .API_ERROR)) ∧
    (axStatus e = some 429 →
      classify (.axios e) =
        ("Rate limit exceeded. Please try again later.", .RATE_LIMIT_ERROR)) ∧
    ((axStatus e = some 500 ∨ axStatus e = some 502 ∨ axStatus e = some 503 ∨ axStatus e = some 504) →
      classify (.axios e) =
        ("n8n server error: " ++ jsOrS (axStatusText e) "Internal server error", .API_ERROR)) ∧
    ((∀ n, axStatus e = some n →
        ¬ n ∈ ([400, 401, 403, 404, 405, 429, 500, 502, 503, 504] : List Nat)) →
      ((e.code = some "ECONNABORTED" ∨ e.code = some "ETIMEDOUT") →
        classify (.axios e) = ("Request timed out. Please try again.", .TIMEOUT_ERROR)) ∧
      (¬(e.code = some "ECONNABORTED" ∨ e.code = some "ETIMEDOUT") →
        (e.code = some "ENOTFOUND" ∨ e.code = some "ECONNREFUSED") →
        classify (.axios e) =
          ("Unable to connect to n8n instance. Please check your API URL.", .NETWORK_ERROR)) ∧
      (¬(e.code = some "ECONNABORTED" ∨ e.code = some "ETIMEDOUT") →
        ¬(e.code = some "ENOTFOUND" ∨ e.code = some "ECONNREFUSED") →
        classify (.axios e) =
          (jsOrS (axApiMessage e)
            (if e.message = "" then "An error occurred while communicating with n8n" else e.message),
           .API_ERROR))) := by
  have hcl : classify (.axios e) = handleAxiosError e := by
    simp [classify, hax]
  refine ⟨?_, ?_, ?_, ?_, ?_, ?_, ?_, ?_⟩
  · intro h
    rw [hcl]
    simp only [handleAxiosError, h]
    norm_num
    split <;> rfl
  · intro h
    rw [hcl]
    simp only [handleAxiosError, h]
    norm_num
  · intro h
    rw [hcl]
    simp only [handleAxiosError, h]
    norm_num
  · intro h
    rw [hcl]
    simp only [handleAxiosError, h]
    norm_num
  · intro h
    rw [hcl]
    simp only [handleAxiosError, h]
    norm_num
    split <;> rfl
  · intro h
    rw [hcl]
    simp only [handleAxiosError, h]
    norm_num
  · intro h
    rw [hcl]
    rcases h with h | h | h | h <;>
      · simp only [handleAxiosError, h]
        norm_num
  · intro hstat
    have h400 : (axStatus e == some 400) = false :=
      beq_eq_false_iff_ne.mpr (fun hc => (hstat 400 hc) (by decide))
    have h401 : (axStatus e == some 401) = false :=
      beq_eq_false_iff_ne.mpr (fun hc => (hstat 401 hc) (by decide))
    have h403 : (axStatus e == some 403) = false :=
      beq_eq_false_iff_ne.mpr (fun hc => (hstat 403 hc) (by decide))
    have h404 : (axStatus e == some 404) = false :=
      beq_eq_false_iff_ne.mpr (fun hc => (hstat 404 hc) (by decide))
    have h405 : (axStatus e == some 405) = false :=
      beq_eq_false_iff_ne.mpr (fun hc => (hstat 405 hc) (by decide))
    have h429 : (axStatus e == some 429) = false :=
      beq_eq_false_iff_ne.mpr (fun hc => (hstat 429 hc) (by decide))
    have h500 : (axStatus e == some 500) = false :=
      beq_eq_false_iff_ne.mpr (fun hc => (hstat 500 hc) (by decide))
    have h502 : (axStatus e == some 502) = false :=
      beq_eq_false_iff_ne.mpr (fun hc => (hstat 502 hc) (by decide))
    have h503 : (axStatus e == some 503) = false :=
      beq_eq_false_iff_ne.mpr (fun hc => (hstat 503 hc) (by decide))
    have h504 : (axStatus e == some 504) = false :=
      beq_eq_false_iff_ne.mpr (fun hc => (hstat 504 hc) (by decide))
    refine ⟨?_, ?_, ?_⟩
    · intro hco
      have hcb : (e.code == some "ECONNABORTED" || e.code == some "ETIMEDOUT") = true := by
        rcases hco with h | h <;> simp [h]
      rw [hcl]
      simp only [handleAxiosError, h400, h401, h403, h404, h405, h429, h500, h502, h503, h504,
        hcb]
      norm_num
    · intro hnt hco
      have hcb1 : (e.code == some "ECONNABORTED" || e.code == some "ETIMEDOUT") = false := by
        simp only [Bool.or_eq_false_iff, beq_eq_false_iff_ne]
        exact ⟨fun h => hnt (Or.inl h), fun h => hnt (Or.inr h)⟩
      have hcb2 : (e.code == some "ENOTFOUND" || e.code == some "ECONNREFUSED") = true := by
        rcases hco with h | h <;> simp [h]
      rw [hcl]
      simp only [handleAxiosError, h400, h401, h403, h404, h405, h429, h500, h502, h503, h504,
        hcb1, hcb2]
      norm_num
    · intro hnt hnn
      have hcb1 : (e.code == some "ECONNABORTED" || e.code == some "ETIMEDOUT") = false := by
        simp only [Bool.or_eq_false_iff, beq_eq_false_iff_ne]
        exact ⟨fun h => hnt (Or.inl h), fun h => hnt (Or.inr h)⟩
      have hcb2 : (e.code == some "ENOTFOUND" || e.code == some "ECONNREFUSED") = false := by
        simp only [Bool.or_eq_false_iff, beq_eq_false_iff_ne]
        exact ⟨fun h => hnn (Or.inl h), fun h => hnn (Or.inr h)⟩
      rw [hcl]
      simp only [handleAxiosError, h400, h401, h403, h404, h405, h429, h500, h502, h503, h504,
        hcb1, hcb2]
      norm_num

/-- C2 witness: a 401 failure classifies to AUTHENTICATION_ERROR with the
documented message. -/
theorem C2_classification_witness :
    classify (.axios { isAxiosError := true, response := some { status := some 401 } }) =
      ("Authentication failed. Please check your n8n API key.",
       ErrorCode.AUTHENTICATION_ERROR) :=
  (C2_classification { isAxiosError := true, response := some { status := some 401 } }
      rfl).2.1 (by decide)

/-- C2 counterexample: for a failure with no response, no recognised
network code and no remote payload message, the claim says the message is
the generic fallback string, but the code passes the error objects own
message through: classifying `axPlain` yields the API_ERROR kind with the
message socket hang up, not the generic fallback. -/
theorem C2_classification_counterexample :
    classify (.axios axPlain) = ("socket hang up", ErrorCode.API_ERROR) ∧
    (classify (.axios axPlain)).1 ≠ "An error occurred while communicating with n8n" := by
  constructor
  · rfl
  · decide

/-- C3: the workflow update tries the primary verb PUT first; its trace
contains PATCH exactly when PUT failed with an axios 405, PATCH appears at
most once, a 405 makes the call return the PATCH outcome, any other PUT
failure is rethrown untouched, and a PUT success returns immediately. -/
theorem C3_update_verb_fallback (putRes patchRes : Except ErrValue Workflow) :
    ((updateWorkflow putRes patchRes).2.head? = some .PUT) ∧
    ((updateWorkflow putRes patchRes).2.count .PATCH ≤ 1) ∧
    ((.PATCH ∈ (updateWorkflow putRes patchRes).2) ↔
      (∃ e, putRes = .error e ∧ isAxiosError e = true ∧ errStatus e = some 405)) ∧
    (∀ e, putRes = .error e → isAxiosError e = true → errStatus e = some 405 →
      (updateWorkflow putRes patchRes).1 = patchRes) ∧
    (∀ e, putRes = .error e → ¬(isAxiosError e = true ∧ errStatus e = some 405) →
      (updateWorkflow putRes patchRes) = (.error e, [.PUT])) ∧
    (∀ w, putRes = .ok w → (updateWorkflow putRes patchRes) = (.ok w, [.PUT])) := by
  cases putRes with
  | ok w =>
    refine ⟨rfl, ?_, ?_, ?_, ?_, ?_⟩
    · show List.count HttpMethod.PATCH [HttpMethod.PUT] ≤ 1
      decide
    · show HttpMethod.PATCH ∈ [HttpMethod.PUT] ↔ _
      constructor
      · intro h; exact absurd h (by decide)
      · rintro ⟨e, he, -⟩; cases he
    · intro e he; cases he
    · intro e he; cases he
    · intro w2 hw; cases hw; rfl
  | error e =>
    by_cases hc : (isAxiosError e && (errStatus e == some 405)) = true
    · have h12 : isAxiosError e = true ∧ (errStatus e == some 405) = true := by
        simpa using hc
      have h2 : errStatus e = some 405 := by simpa using h12.2
      simp only [updateWorkflow, hc, if_true]
      refine ⟨rfl, by decide, ?_, ?_, ?_, ?_⟩
      · constructor
        · intro _; exact ⟨e, rfl, h12.1, h2⟩
        · intro _; decide
      · intro e2 he2 _ _; trivial
      · intro e2 he2 hn
        cases he2
        exact absurd ⟨h12.1, h2⟩ hn
      · intro w hw; cases hw
    · have hcf : (isAxiosError e && (errStatus e == some 405)) = false := by
        simpa using hc
      simp only [updateWorkflow, hcf, Bool.false_eq_true, if_false]
      refine ⟨rfl, by decide, ?_, ?_, ?_, ?_⟩
      · constructor
        · intro h; exact absurd h (by decide)
        · rintro ⟨e2, he2, hh1, hh2⟩
          cases he2
          rw [hh1] at hcf
          simp [hh2] at hcf
      · intro e2 he2 hh1 hh2
        cases he2
        rw [hh1] at hcf
        simp [hh2] at hcf
      · intro e2 he2 _; cases he2; trivial
      · intro w hw; cases hw

/-- C3 witness: a PUT rejected with 405 is retried once with PATCH and the
PATCH outcome is returned. -/
theorem C3_update_verb_fallback_witness :
    (updateWorkflow (Except.error (ErrValue.axios ax405)) (Except.ok wfA)).1 =
      Except.ok wfA :=
  (C3_update_verb_fallback (Except.error (ErrValue.axios ax405))
      (Except.ok wfA)).2.2.2.1 (ErrValue.axios ax405) rfl (by decide) (by decide)

theorem chainSpec_setActive (flag : Bool) :
    ChainSpec flag (setActiveWorkflowModel flag) := by
  intro env id
  refine ⟨?_, ?_, ?_, ?_, ?_⟩
  · intro w h1
    simp only [setActiveWorkflowModel, h1]
  · intro e h1 h2
    simp only [setActiveWorkflowModel, h1, h2]
    rfl
  · intro e w w2 h1 h2 h3 h4
    simp only [setActiveWorkflowModel, h1, h2, h3, h4, if_true]
  · intro e w e2 h1 h2 h3 h4
    simp only [setActiveWorkflowModel, h1, h2, h3, h4, if_true]
  · intro e e2 h1 h2 h3
    simp only [setActiveWorkflowModel, h1, h2, h3, if_true]

theorem activate_eq_model :
    activateWorkflow = setActiveWorkflowModel true := rfl

theorem deactivate_eq_model :
    deactivateWorkflow = setActiveWorkflowModel false := rfl

/-- C4: for both activation and deactivation, the stage chain is exactly:
the minimal active-flag PUT; on an axios 405 or 400 from it (and only
then), the fetch of the full record, the flag set on it and the second
PUT; the minimal PATCH exactly when that second stage (fetch or resubmit)
fails; the first success ends the chain, any non-405/400 first failure is
rethrown, and when all stages are used the PATCH (final) outcome is
returned.  Stated as a full case analysis of which requests each function
issues and what it returns. -/
theorem C4_activation_chain :
    ChainSpec true activateWorkflow ∧ ChainSpec false deactivateWorkflow := by
  constructor
  · rw [activate_eq_model]
    exact chainSpec_setActive true
  · rw [deactivate_eq_model]
    exact chainSpec_setActive false

/-- C4 witness: a remote that accepts the minimal PUT ends the activation
chain at its first stage. -/
theorem C4_activation_chain_witness :
    activateWorkflow envAllOk "w1" =
      (Except.ok wfA, [ApiCall.put "w1" (UpdateBody.activeOnly true)]) :=
  ((C4_activation_chain.1 envAllOk "w1").1 wfA rfl)

/-- C10: the deactivation operation is the activation operation with the
boolean flag flipped: both source functions are extensionally equal to the
single generic chain `setActiveWorkflowModel` applied to their flag, so
they perform the same requests and fallback decisions, differing only in
the `active` value carried. -/
theorem C10_deactivate_refines_activate :
    ∀ (env : ApiCall → Except ErrValue Workflow) (id : String),
      activateWorkflow env id = setActiveWorkflowModel true env id ∧
      deactivateWorkflow env id = setActiveWorkflowModel false env id :=
  fun _ _ => ⟨rfl, rfl⟩

/-- C5 counterexample: for an unknown tool name the CallTool handler does
not produce a ToolResult at all — the NOT_FOUND `McpError` is thrown
before the try block and escapes the handler boundary. -/
theorem C5_counterexample :
    callToolHandler none "does_not_exist" =
      Except.error (ErrValue.mcp ErrorCode.NOT_FOUND "Tool not found: does_not_exist") ∧
    ∀ r : ToolResult, callToolHandler none "does_not_exist" ≠ Except.ok r := by
  refine ⟨rfl, ?_⟩
  intro r h
  cases h

/-- C5 (amended): for a known tool, exactly one ToolResult is produced —
a handler failure is classified and rendered as an isError envelope with
the single text entry `Error: <message>` and never propagates, and a
handler success is returned as is; for an unknown tool name a NOT_FOUND
`McpError` is thrown out of the CallTool handler instead of being returned
as a ToolResult. -/
theorem C5_tool_result_policy (name : String) :
    (∀ e : ErrValue, callToolHandler (some (.error e)) name =
      .ok { isError := true
            content := [{ type := "text", text := "Error: " ++ (classify e).1 }] }) ∧
    (∀ r : ToolResult, callToolHandler (some (.ok r)) name = .ok r) ∧
    (callToolHandler none name =
      .error (.mcp .NOT_FOUND ("Tool not found: " ++ name))) :=
  ⟨fun _ => rfl, fun _ => rfl, rfl⟩

/-- C6: the failing input shows the sanitizer is never applied — the
classifier renders a bearer token verbatim while `sanitizeErrorMessage`
would have redacted it. -/
theorem C6_redaction_not_applied :
    (createErrorResponse (ErrValue.jsError "Bearer abc123")).content =
      [{ type := "text", text := "Error: Bearer abc123" }] ∧
    sanitizeErrorMessage "Bearer abc123" = "Bearer [REDACTED]" ∧
    (createErrorResponse (ErrValue.jsError "Bearer abc123")).content ≠
      [{ type := "text", text := "Error: " ++ sanitizeErrorMessage "Bearer abc123" }] := by
  refine ⟨rfl, by decide, by decide⟩

/-- C7 counterexample: a schema-validation failure is a `ZodError`, which
is an `Error` instance but not an `McpError`, so the classifier labels it
INTERNAL_ERROR, not INVALID_PARAMS. -/
theorem C7_counterexample :
    classify (ErrValue.jsError zodIssuesMsg) = (zodIssuesMsg, ErrorCode.INTERNAL_ERROR) ∧
    (classify (ErrValue.jsError zodIssuesMsg)).2 ≠ ErrorCode.INVALID_PARAMS := by
  refine ⟨rfl, by decide⟩

/-- C7 (amended): a zod schema failure surfaces with the INTERNAL_ERROR
kind and its own aggregated message passed through unchanged, while the
repository validation helper `validateRequiredParams` raises an
INVALID_PARAMS failure whose message joins every missing (falsy)
parameter, not just the first: every required parameter whose value is
falsy appears in the reported list. -/
theorem C7_validation_failures (ps : List (String × JsValue)) (req : List String) :
    (∀ msg, classify (ErrValue.jsError msg) = (msg, ErrorCode.INTERNAL_ERROR)) ∧
    ((req.filter (fun p => !(jsLookup ps p).truthy)).length > 0 →
      validateRequiredParams ps req =
        .error (.mcp .INVALID_PARAMS
          ("Missing required parameters: " ++
            String.intercalate ", " (req.filter (fun p => !(jsLookup ps p).truthy))))) ∧
    ((req.filter (fun p => !(jsLookup ps p).truthy)).length = 0 →
      validateRequiredParams ps req = .ok ()) ∧
    (∀ p, p ∈ req → (jsLookup ps p).truthy = false →
      p ∈ req.filter (fun p => !(jsLookup ps p).truthy)) := by
  refine ⟨fun _ => rfl, ?_, ?_, ?_⟩
  · intro h
    simp only [validateRequiredParams, if_pos h]
  · intro h
    simp only [validateRequiredParams]
    rw [if_neg (by omega)]
  · intro p hp hfalsy
    refine List.mem_filter.mpr ⟨hp, ?_⟩
    simp [hfalsy]

/-- C7 witness: an input supplying only the id leaves both missing
parameters listed in the single INVALID_PARAMS failure. -/
theorem C7_validation_failures_witness :
    validateRequiredParams [("id", JsValue.vstr "wf1")] ["id", "name", "nodes"] =
      Except.error (ErrValue.mcp ErrorCode.INVALID_PARAMS
        "Missing required parameters: name, nodes") := by
  have h := (C7_validation_failures [("id", JsValue.vstr "wf1")] ["id", "name", "nodes"]).2.1
    (by decide)
  rw [h]
  rfl

/-- C8 counterexample: on a remote 404 the webhook handler returns the
guidance text, but in a plain envelope whose `isError` flag is absent
(false) — not an error envelope as the claim states. -/
theorem C8_counterexample :
    handleTriggerWebhookWorkflow (Except.error (ErrValue.axios ax404)) =
      Except.ok { isError := false, content := [{ type := "text", text := webhookGuidance }] } ∧
    ∀ r : ToolResult,
      handleTriggerWebhookWorkflow (Except.error (ErrValue.axios ax404)) = Except.ok r →
      r.isError = false := by
  constructor
  · rfl
  · intro r h
    cases h
    rfl

/-- C8 (amended): whenever the webhook call fails with an `Error` whose
message mentions 404 (an axios HTTP 404 failure in particular), the
handler returns the fixed actionable guidance about webhook trigger
configuration, prefixed `Error:`, as a plain (non-error-flagged) result
envelope rather than rethrowing; any other failure is rethrown. -/
theorem C8_webhook_guidance (e : ErrValue)
    (h1 : isErrorInstance e = true)
    (h2 : containsSub (errMessage e) "404" = true) :
    handleTriggerWebhookWorkflow (Except.error e) =
      Except.ok { isError := false, content := [{ type := "text", text := webhookGuidance }] } ∧
    containsSub webhookGuidance "Webhook trigger node" = true ∧
    (∀ e2 : ErrValue, (isErrorInstance e2 && containsSub (errMessage e2) "404") = false →
      handleTriggerWebhookWorkflow (Except.error e2) = Except.error e2) := by
  refine ⟨?_, by decide, ?_⟩
  · simp only [handleTriggerWebhookWorkflow, h1, h2]
    rfl
  · intro e2 hf
    simp only [handleTriggerWebhookWorkflow, hf, Bool.false_eq_true, if_false]

/-- C8 witness: applied to the concrete axios 404 failure. -/
theorem C8_webhook_guidance_witness :
    handleTriggerWebhookWorkflow (Except.error (ErrValue.axios ax404)) =
      Except.ok { isError := false, content := [{ type := "text", text := webhookGuidance }] } :=
  (C8_webhook_guidance (ErrValue.axios ax404) (by decide) (by decide)).1

/-- C9 counterexample: with nodes and connections missing, the fetch
succeeds, yet the caller-data fallback submission still happens because
the merged resubmission failed — the catch block wraps both calls, so the
fallback is not issued exactly when the fetch fails. -/
theorem C9_counterexample :
    (handleUpdateWorkflow pUpdEx (Except.ok w0)
        (fun _ => Except.error (ErrValue.axios ax500)) (Except.ok w1)).2 =
      [UpdEvent.fetch "wf9", UpdEvent.submitMerged "wf9" (mergeWorkflow w0 pUpdEx),
       UpdEvent.submitCallerData "wf9"] ∧
    UpdEvent.submitCallerData "wf9" ∈ (handleUpdateWorkflow pUpdEx (Except.ok w0)
        (fun _ => Except.error (ErrValue.axios ax500)) (Except.ok w1)).2 ∧
    (handleUpdateWorkflow pUpdEx (Except.ok w0)
        (fun _ => Except.error (ErrValue.axios ax500)) (Except.ok w1)).1 =
      Except.ok (updatedResponse w1) := by
  refine ⟨rfl, ?_, rfl⟩
  show UpdEvent.submitCallerData "wf9" ∈
    [UpdEvent.fetch "wf9", UpdEvent.submitMerged "wf9" (mergeWorkflow w0 pUpdEx),
     UpdEvent.submitCallerData "wf9"]
  exact List.mem_cons_of_mem _ (List.mem_cons_of_mem _ (List.mem_singleton.mpr rfl))

/-- C9 (amended): when the caller did not supply both nodes and
connections, the handler fetches the current workflow, merges the
caller-supplied fields over it and submits the merged record; it submits
only the caller-supplied fields when the fetch fails or when the merged
submission fails; with both fields supplied it submits the caller data
directly with no fetch. -/
theorem C9_merge_before_update (p : UpdateWorkflowParams)
    (getRes : Except ErrValue Workflow)
    (updMerged : Workflow → Except ErrValue Workflow)
    (updCallerData : Except ErrValue Workflow) :
    ((p.nodes.isNone || p.connections.isNone) = true →
      (∀ w w2, getRes = .ok w → updMerged (mergeWorkflow w p) = .ok w2 →
        handleUpdateWorkflow p getRes updMerged updCallerData =
          (.ok (updatedResponse w2),
           [.fetch p.id, .submitMerged p.id (mergeWorkflow w p)])) ∧
      (∀ w e, getRes = .ok w → updMerged (mergeWorkflow w p) = .error e →
        handleUpdateWorkflow p getRes updMerged updCallerData =
          (updCallerData.map updatedResponse,
           [.fetch p.id, .submitMerged p.id (mergeWorkflow w p), .submitCallerData p.id])) ∧
      (∀ e, getRes = .error e →
        handleUpdateWorkflow p getRes updMerged updCallerData =
          (updCallerData.map updatedResponse, [.fetch p.id, .submitCallerData p.id]))) ∧
    ((p.nodes.isNone || p.connections.isNone) = false →
      handleUpdateWorkflow p getRes updMerged updCallerData =
        (updCallerData.map updatedResponse, [.submitCallerData p.id])) := by
  constructor
  · intro hmiss
    refine ⟨?_, ?_, ?_⟩
    · intro w w2 hg hm
      simp only [handleUpdateWorkflow, hmiss, if_true, hg, hm]
    · intro w e hg hm
      simp only [handleUpdateWorkflow, hmiss, if_true, hg, hm]
    · intro e hg
      simp only [handleUpdateWorkflow, hmiss, if_true, hg]
  · intro hfull
    simp only [handleUpdateWorkflow, hfull, Bool.false_eq_true, if_false]

/-- C9 witness: a rename without nodes or connections fetches, merges and
submits the merged record, with no caller-data fallback. -/
theorem C9_merge_before_update_witness :
    handleUpdateWorkflow pUpdEx (Except.ok w0) (fun _ => Except.ok w1)
        (Except.error (ErrValue.axios ax500)) =
      (Except.ok (updatedResponse w1),
       [UpdEvent.fetch "wf9", UpdEvent.submitMerged "wf9" (mergeWorkflow w0 pUpdEx)]) :=
  ((C9_merge_before_update pUpdEx (Except.ok w0) (fun _ => Except.ok w1)
      (Except.error (ErrValue.axios ax500))).1 (by decide)).1 w0 w1 rfl rfl

end N8n
